import Mathlib

/-
Shallow embedding of the TKA Madrasah helpdesk backend
(src/server/src/handlers/{reports,progress,auth,users}.ts, the dashboard
handler, and the drizzle schema), together with theorems settling the
frozen claims about the report lifecycle, progress ledger, authentication
and dashboard rollup.

Modelling conventions:
  - every table is a list of rows inside a `Store`; serial primary keys are
    modelled by explicit `next…Id` counters; `now` is the clock value used
    for `defaultNow()` / `new Date()` within one request;
  - each handler becomes a pure function from inputs and a `Store` to an
    `Except String` result (the thrown `Error` message) or a plain value
    when the source has no throw path of its own;
  - `db.select().where(...).limit(1)` becomes `List.find?`; `ORDER BY` is
    denoted by `List.insertionSort` over the ordering column;
  - the password hashing primitive is a collaborator boundary in the spec,
    so handlers that hash take an opaque `hashPw : String → String`.
-/

namespace TkaHelpdesk

/-- user_role pgEnum from the drizzle schema: pelapor (reporter) or admin. -/
inductive Role where
  | pelapor
  | admin
deriving DecidableEq

/-- report_status pgEnum from the drizzle schema: baru (new), proses (in progress), selesai (done). -/
inductive Status where
  | baru
  | proses
  | selesai
deriving DecidableEq

/-- Row of usersTable. -/
structure UserRow where
  id : Nat
  username : String
  name : String
  email : String
  password_hash : String
  role : Role
  is_active : Bool
  created_at : Nat
  updated_at : Nat
deriving DecidableEq

/-- Row of categoriesTable. -/
structure CategoryRow where
  id : Nat
  name : String
  description : Option String
  is_active : Bool
  created_at : Nat
  updated_at : Nat
deriving DecidableEq

/-- Row of reportsTable. -/
structure ReportRow where
  id : Nat
  npsn : String
  school_name : String
  category_id : Nat
  issue_description : String
  nisn : Option String
  status : Status
  reporter_id : Nat
  created_at : Nat
  updated_at : Nat
deriving DecidableEq

/-- Row of reportProgressTable. admin_id is nullable (null marks system-generated entries); the column carries no foreign-key constraint in the schema. -/
structure ProgressRow where
  id : Nat
  report_id : Nat
  admin_id : Option Nat
  status : Status
  notes : Option String
  created_at : Nat
deriving DecidableEq

/-- The relational store: the four tables, serial-id counters, and the request clock. -/
structure Store where
  users : List UserRow
  categories : List CategoryRow
  reports : List ReportRow
  progress : List ProgressRow
  nextUserId : Nat
  nextReportId : Nat
  nextProgressId : Nat
  now : Nat
deriving DecidableEq

/-- createReportInputSchema (zod): all fields required, nisn nullable. -/
structure CreateReportInput where
  npsn : String
  school_name : String
  category_id : Nat
  issue_description : String
  nisn : Option String
  reporter_id : Nat
deriving DecidableEq

/-- updateReportInputSchema (zod): all fields except id optional; nisn is nullable AND optional, so it is doubly wrapped to distinguish absent (none) from explicit null (some none). -/
structure UpdateReportInput where
  id : Nat
  npsn : Option String
  school_name : Option String
  category_id : Option Nat
  issue_description : Option String
  nisn : Option (Option String)
  status : Option Status
deriving DecidableEq

/-- loginInputSchema (zod). -/
structure LoginInput where
  username : String
  password : String
deriving DecidableEq

/-- createUserInputSchema (zod). -/
structure CreateUserInput where
  username : String
  name : String
  email : String
  password : String
  role : Role
  is_active : Bool
deriving DecidableEq

/-- createReportProgressInputSchema (zod). -/
structure CreateReportProgressInput where
  report_id : Nat
  admin_id : Option Nat
  status : Status
  notes : Option String
deriving DecidableEq

/-- userDashboardSchema (zod): the pelapor dashboard rollup. -/
structure UserDashboard where
  total_reports : Nat
  new_reports : Nat
  in_progress_reports : Nat
  completed_reports : Nat
deriving DecidableEq

/-- reportWithRelationsSchema (zod): a report joined with category and reporter names, plus its progress timeline. -/
structure ReportWithRelations where
  id : Nat
  npsn : String
  school_name : String
  category_id : Nat
  category_name : String
  issue_description : String
  nisn : Option String
  status : Status
  reporter_id : Nat
  reporter_name : String
  created_at : Nat
  updated_at : Nat
  progress : List ProgressRow
deriving DecidableEq

/-- The report_progress rows referencing a given report id (the WHERE clause shared by every progress query). -/
def progressFor (reportId : Nat) (s : Store) : List ProgressRow :=
  s.progress.filter (fun p => p.report_id == reportId)

/-- select from categoriesTable where id = categoryId and is_active limit 1 (reports.ts lines 22-26 and 296-300). -/
def findActiveCategory (categoryId : Nat) (s : Store) : Option CategoryRow :=
  s.categories.find? (fun c => c.id == categoryId && c.is_active)

/-- select from usersTable where id = userId and is_active limit 1 (reports.ts lines 32-36). -/
def findActiveUser (userId : Nat) (s : Store) : Option UserRow :=
  s.users.find? (fun u => u.id == userId && u.is_active)

/-- select from usersTable where id = adminId and role = admin and is_active limit 1 (reports.ts lines 389-393). -/
def findActiveAdmin (adminId : Nat) (s : Store) : Option UserRow :=
  s.users.find? (fun u => u.id == adminId && u.role == Role.admin && u.is_active)

/-- The db.insert(reportsTable) statement of createReport (reports.ts lines 43-54): one new row with serial id, status baru, defaultNow timestamps. -/
def insertReportStmt (input : CreateReportInput) (s : Store) : ReportRow × Store :=
  let row : ReportRow :=
    { id := s.nextReportId
      npsn := input.npsn
      school_name := input.school_name
      category_id := input.category_id
      issue_description := input.issue_description
      nisn := input.nisn
      status := Status.baru
      reporter_id := input.reporter_id
      created_at := s.now
      updated_at := s.now }
  (row, { s with reports := s.reports ++ [row], nextReportId := s.nextReportId + 1 })

/-- A db.insert(reportProgressTable) statement (reports.ts lines 59-66 and 410-417, progress.ts lines 12-20): one new ledger row with serial id and defaultNow created_at. -/
def insertProgressStmt (reportId : Nat) (adminId : Option Nat) (st : Status)
    (notes : Option String) (s : Store) : ProgressRow × Store :=
  let row : ProgressRow :=
    { id := s.nextProgressId
      report_id := reportId
      admin_id := adminId
      status := st
      notes := notes
      created_at := s.now }
  (row, { s with progress := s.progress ++ [row], nextProgressId := s.nextProgressId + 1 })

/-- createReport (reports.ts lines 19-73): active-category check, active-reporter check, report insert, then the initial ledger insert with status baru, admin null and note "Laporan dibuat". -/
def createReport (input : CreateReportInput) (s : Store) :
    Except String (ReportRow × Store) :=
  match findActiveCategory input.category_id s with
  | none => Except.error "Category not found or inactive"
  | some _ =>
    match findActiveUser input.reporter_id s with
    | none => Except.error "Reporter not found or inactive"
    | some _ =>
      let rs := insertReportStmt input s
      let ps := insertProgressStmt rs.1.id none Status.baru (some "Laporan dibuat") rs.2
      Except.ok (rs.1, ps.2)

/-- The store observed if the second statement of createReport (the ledger insert) fails after the first (the report insert) succeeded: the source issues the two inserts as separate sequential awaited statements with no db.transaction wrapper, and its catch block only logs and rethrows, so the report row persists. -/
def createReportAfterLedgerInsertFailure (input : CreateReportInput) (s : Store) : Store :=
  (insertReportStmt input s).2

/-- The db.update(reportsTable) statement of updateReportStatus (reports.ts lines 400-407): sets status and updated_at on every row with the given id. -/
def updateReportStatusStmt (reportId : Nat) (st : Status) (s : Store) : Store :=
  { s with reports := s.reports.map (fun r =>
      if r.id == reportId then { r with status := st, updated_at := s.now } else r) }

/-- updateReportStatus (reports.ts lines 370-424): report-existence check, active-admin check, status update, then one ledger insert carrying the new status and the acting admin id. -/
def updateReportStatus (reportId : Nat) (st : Status) (notes : Option String)
    (adminId : Nat) (s : Store) : Except String (ReportRow × Store) :=
  match s.reports.find? (fun r => r.id == reportId) with
  | none => Except.error "Report not found"
  | some r0 =>
    match findActiveAdmin adminId s with
    | none => Except.error "Admin not found or inactive"
    | some _ =>
      let s1 := updateReportStatusStmt reportId st s
      let ps := insertProgressStmt reportId (some adminId) st notes s1
      Except.ok ({ r0 with status := st, updated_at := s.now }, ps.2)

/-- The store observed if the second statement of updateReportStatus (the ledger insert) fails after the first (the row update) succeeded: no transaction wraps the two statements, so the status change persists without a matching ledger entry. -/
def updateReportStatusAfterLedgerInsertFailure (reportId : Nat) (st : Status) (s : Store) : Store :=
  updateReportStatusStmt reportId st s

/-- The db.delete(reportProgressTable) statement of deleteReport (reports.ts lines 353-355). -/
def deleteProgressStmt (reportId : Nat) (s : Store) : Store :=
  { s with progress := s.progress.filter (fun p => !(p.report_id == reportId)) }

/-- The db.delete(reportsTable) statement of deleteReport (reports.ts lines 358-360). -/
def deleteReportStmt (reportId : Nat) (s : Store) : Store :=
  { s with reports := s.reports.filter (fun r => !(r.id == reportId)) }

/-- deleteReport (reports.ts lines 332-367): ownership lookup (id AND reporter in one WHERE, so missing and foreign reports are indistinguishable), baru-status gate, then ledger delete followed by report delete. -/
def deleteReport (id userId : Nat) (s : Store) : Except String (Bool × Store) :=
  match s.reports.find? (fun r => r.id == id && r.reporter_id == userId) with
  | none => Except.error "Report not found or access denied"
  | some r =>
    if r.status != Status.baru then
      Except.error "Can only delete reports with status \"baru\""
    else
      Except.ok (true, deleteReportStmt id (deleteProgressStmt id s))

/-- The store observed if the second statement of deleteReport (the report delete) fails after the first (the ledger delete) succeeded: no transaction wraps the two statements, so the ledger rows are gone while the report row remains. -/
def deleteReportAfterReportDeleteFailure (id : Nat) (s : Store) : Store :=
  deleteProgressStmt id s

/-- The updateValues object of updateReport (reports.ts lines 308-316) applied to a row: updated_at is always set; npsn, school_name, category_id and issue_description are applied only when truthy (non-empty string, nonzero number — the source guards with plain JS truthiness); nisn is applied whenever it is not undefined, so an explicit null clears it. -/
def applyReportUpdate (input : UpdateReportInput) (now : Nat) (r : ReportRow) : ReportRow :=
  { r with
    npsn := match input.npsn with
      | some v => if v != "" then v else r.npsn
      | none => r.npsn
    school_name := match input.school_name with
      | some v => if v != "" then v else r.school_name
      | none => r.school_name
    category_id := match input.category_id with
      | some v => if v != 0 then v else r.category_id
      | none => r.category_id
    issue_description := match input.issue_description with
      | some v => if v != "" then v else r.issue_description
      | none => r.issue_description
    nisn := match input.nisn with
      | some v => v
      | none => r.nisn
    updated_at := now }

/-- Truthiness of the optional numeric category_id, as tested by `if (input.category_id)` in the source. -/
def truthyNat : Option Nat → Bool
  | some v => v != 0
  | none => false

/-- updateReport (reports.ts lines 274-329): ownership lookup (id AND reporter in one WHERE), baru-status gate, active-category check when a truthy category_id is supplied, then one partial row update; it never writes status and never touches the ledger. -/
def updateReport (input : UpdateReportInput) (userId : Nat) (s : Store) :
    Except String (ReportRow × Store) :=
  match s.reports.find? (fun r => r.id == input.id && r.reporter_id == userId) with
  | none => Except.error "Report not found or access denied"
  | some r =>
    if r.status != Status.baru then
      Except.error "Can only update reports with status \"baru\""
    else if truthyNat input.category_id &&
        (findActiveCategory (input.category_id.getD 0) s).isNone then
      Except.error "Category not found or inactive"
    else
      Except.ok (applyReportUpdate input s.now r,
        { s with reports := s.reports.map (fun x =>
            if x.id == input.id then applyReportUpdate input s.now x else x) })

/-- createReportProgress (progress.ts lines 10-27): a bare db.insert(reportProgressTable) with the input fields. The handler performs no lookup of the referenced report, and the drizzle schema declares no foreign-key constraint on report_progress.report_id (the relations() declarations are query-layer only), so the insert succeeds regardless of whether report_id resolves. -/
def createReportProgress (input : CreateReportProgressInput) (s : Store) :
    ProgressRow × Store :=
  insertProgressStmt input.report_id input.admin_id input.status input.notes s

/-- Ascending created_at order on ledger rows (the asc(created_at) ORDER BY of getReportById, reports.ts line 249). -/
def createdAsc (a b : ProgressRow) : Prop := a.created_at ≤ b.created_at

/-- Descending created_at order on ledger rows (the desc(created_at) ORDER BY of getReportProgress, progress.ts line 35). -/
def createdDesc (a b : ProgressRow) : Prop := b.created_at ≤ a.created_at

instance : DecidableRel createdAsc := fun a b => Nat.decLe a.created_at b.created_at

instance : DecidableRel createdDesc := fun a b => Nat.decLe b.created_at a.created_at

instance : IsTotal ProgressRow createdAsc := ⟨fun a b => Nat.le_total a.created_at b.created_at⟩

instance : IsTrans ProgressRow createdAsc := ⟨fun _ _ _ h1 h2 => Nat.le_trans h1 h2⟩

instance : IsTotal ProgressRow createdDesc := ⟨fun a b => (Nat.le_total b.created_at a.created_at)⟩

instance : IsTrans ProgressRow createdDesc := ⟨fun _ _ _ h1 h2 => Nat.le_trans h2 h1⟩

/-- getReportProgress (progress.ts lines 30-43): the standalone timeline, ledger rows of the report ordered by created_at descending (newest first). Returns the empty list for an unknown report id. -/
def getReportProgress (reportId : Nat) (s : Store) : List ProgressRow :=
  List.insertionSort createdDesc (progressFor reportId s)

/-- getReportById (reports.ts lines 208-271): the report inner-joined with its category and reporter (absent join partner yields null), with its progress timeline ordered by created_at ascending (oldest first). -/
def getReportById (id : Nat) (s : Store) : Option ReportWithRelations :=
  match s.reports.find? (fun r => r.id == id) with
  | none => none
  | some r =>
    match s.categories.find? (fun c => c.id == r.category_id),
          s.users.find? (fun u => u.id == r.reporter_id) with
    | some c, some u =>
      some { id := r.id
             npsn := r.npsn
             school_name := r.school_name
             category_id := r.category_id
             category_name := c.name
             issue_description := r.issue_description
             nisn := r.nisn
             status := r.status
             reporter_id := r.reporter_id
             reporter_name := u.name
             created_at := r.created_at
             updated_at := r.updated_at
             progress := List.insertionSort createdAsc (progressFor id s) }
    | _, _ => none

/-- login (auth.ts lines 18-59): username lookup (miss gives the generic invalid-credentials error), inactive-account check (its own distinct error), password verification against hashPw (mismatch gives the same generic error), and on success the user row with password_hash blanked. -/
def login (hashPw : String → String) (input : LoginInput) (s : Store) :
    Except String UserRow :=
  match s.users.find? (fun u => u.username == input.username) with
  | none => Except.error "Invalid username or password"
  | some user =>
    if !user.is_active then
      Except.error "User account is disabled"
    else if !(hashPw input.password == user.password_hash) then
      Except.error "Invalid username or password"
    else
      Except.ok { user with password_hash := "" }

/-- getCurrentUser (auth.ts lines 62-93): id lookup, returning the row with password_hash blanked, or null. -/
def getCurrentUser (userId : Nat) (s : Store) : Option UserRow :=
  (s.users.find? (fun u => u.id == userId)).map (fun u => { u with password_hash := "" })

/-- createUser (users.ts lines 8-32): hashes the password, inserts the row, and returns result[0] — the full inserted row, password_hash included. -/
def createUser (hashPw : String → String) (input : CreateUserInput) (s : Store) :
    UserRow × Store :=
  let row : UserRow :=
    { id := s.nextUserId
      username := input.username
      name := input.name
      email := input.email
      password_hash := hashPw input.password
      role := input.role
      is_active := input.is_active
      created_at := s.now
      updated_at := s.now }
  (row, { s with users := s.users ++ [row], nextUserId := s.nextUserId + 1 })

/-- getUserById (users.ts lines 120-132): id lookup returning the raw row (password_hash included) or null. -/
def getUserById (id : Nat) (s : Store) : Option UserRow :=
  s.users.find? (fun u => u.id == id)

/-- getUserDashboard (handlers/dashboard.ts): total count of the user's reports plus per-status counts obtained from the GROUP BY status query, mapped onto the three rollup fields. -/
def getUserDashboard (userId : Nat) (s : Store) : UserDashboard :=
  let mine := s.reports.filter (fun r => r.reporter_id == userId)
  { total_reports := mine.length
    new_reports := (mine.filter (fun r => r.status == Status.baru)).length
    in_progress_reports := (mine.filter (fun r => r.status == Status.proses)).length
    completed_reports := (mine.filter (fun r => r.status == Status.selesai)).length }

/-- Driver iterating updateReportStatus over a list of (status, note) calls, stopping at the first failure; used to state the N-calls claim. -/
def applyUpdates (adminId reportId : Nat) (us : List (Status × Option String))
    (s : Store) : Except String Store :=
  match us with
  | [] => Except.ok s
  | u :: rest =>
    match updateReportStatus reportId u.1 u.2 adminId s with
    | Except.error e => Except.error e
    | Except.ok p => applyUpdates adminId reportId rest p.2

/-- Boolean success observation on a handler result. -/
def isOk {α : Type} : Except String α → Bool
  | Except.ok _ => true
  | Except.error _ => false

/-- Spec-worded success predicate for the amended UpdateByReporter claim: the report exists with the acting reporter as owner, its status is baru, and any truthy category_id in the input resolves to an active category. -/
def updateByReporterPre (input : UpdateReportInput) (userId : Nat) (s : Store) : Bool :=
  match s.reports.find? (fun r => r.id == input.id && r.reporter_id == userId) with
  | none => false
  | some r =>
    r.status == Status.baru &&
      (if truthyNat input.category_id then
        (findActiveCategory (input.category_id.getD 0) s).isSome
      else true)

/-- Concrete fixture: an active reporter account. -/
def uReporter : UserRow :=
  { id := 7, username := "alice", name := "Alice", email := "alice@example.com",
    password_hash := "hunter2h", role := Role.pelapor, is_active := true,
    created_at := 1, updated_at := 1 }

/-- Concrete fixture: an active admin account. -/
def uAdmin : UserRow :=
  { id := 2, username := "admin1", name := "Admin", email := "admin@example.com",
    password_hash := "adminpwh", role := Role.admin, is_active := true,
    created_at := 1, updated_at := 1 }

/-- Concrete fixture: a deactivated reporter account. -/
def uInactive : UserRow :=
  { id := 3, username := "bob", name := "Bob", email := "bob@example.com",
    password_hash := "hunter2h", role := Role.pelapor, is_active := false,
    created_at := 1, updated_at := 1 }

/-- Concrete fixture: an active category. -/
def cat1 : CategoryRow :=
  { id := 1, name := "Teknis", description := none, is_active := true,
    created_at := 1, updated_at := 1 }

/-- Concrete fixture: a store with the three accounts and one active category, no reports yet. -/
def baseStore : Store :=
  { users := [uReporter, uAdmin, uInactive], categories := [cat1],
    reports := [], progress := [], nextUserId := 4, nextReportId := 1,
    nextProgressId := 1, now := 100 }

/-- Concrete fixture: a freshly created report owned by the reporter. -/
def rep1 : ReportRow :=
  { id := 1, npsn := "12345678", school_name := "MTs 1",
    category_id := 1, issue_description := "Nilai TKA belum muncul",
    nisn := some "1234567890", status := Status.baru, reporter_id := 7,
    created_at := 100, updated_at := 100 }

/-- Concrete fixture: the creation ledger entry of rep1. -/
def prog1 : ProgressRow :=
  { id := 1, report_id := 1, admin_id := none, status := Status.baru,
    notes := some "Laporan dibuat", created_at := 100 }

/-- Concrete fixture: the base store after rep1 was created. -/
def storeWithReport : Store :=
  { users := [uReporter, uAdmin, uInactive], categories := [cat1],
    reports := [rep1], progress := [prog1], nextUserId := 4, nextReportId := 2,
    nextProgressId := 2, now := 200 }

/-- Concrete opaque password-hash collaborator used by the witnesses. -/
def hashW (p : String) : String := p ++ "h"

/-- Concrete fixture: a valid createReport input against baseStore. -/
def cInput : CreateReportInput :=
  { npsn := "12345678", school_name := "MTs 1", category_id := 1,
    issue_description := "Nilai TKA belum muncul", nisn := some "1234567890",
    reporter_id := 7 }

/-- Every report row has exactly one of the three statuses, so a list's length is the sum of its three per-status filter lengths. -/
theorem length_filter_status (l : List ReportRow) :
    l.length =
      (l.filter (fun r => r.status == Status.baru)).length +
      (l.filter (fun r => r.status == Status.proses)).length +
      (l.filter (fun r => r.status == Status.selesai)).length := by
  induction l with
  | nil => rfl
  | cons a t ih =>
    cases h : a.status <;> simp [List.filter_cons, h, ih] <;> omega

/-- C10: for every store state and user id, the user dashboard rollup satisfies total_reports equal to the sum of new_reports, in_progress_reports and completed_reports, because every report status is exactly one of baru, proses, selesai. -/
theorem userDashboard_total_is_sum_of_statuses (s : Store) (userId : Nat) :
    (getUserDashboard userId s).total_reports =
      (getUserDashboard userId s).new_reports +
      (getUserDashboard userId s).in_progress_reports +
      (getUserDashboard userId s).completed_reports := by
  simp only [getUserDashboard]
  exact length_filter_status _

/-- C8 (amended): createReportProgress performs no validation at all — for every input, including one whose report_id references no existing report, it inserts exactly one ProgressEntry with the given admin_id, status and note, and touches nothing else. -/
theorem createReportProgress_pure_insert (s : Store) (input : CreateReportProgressInput) :
    (createReportProgress input s).1.report_id = input.report_id ∧
    (createReportProgress input s).1.admin_id = input.admin_id ∧
    (createReportProgress input s).1.status = input.status ∧
    (createReportProgress input s).1.notes = input.notes ∧
    (createReportProgress input s).2.progress =
      s.progress ++ [(createReportProgress input s).1] ∧
    (createReportProgress input s).2.reports = s.reports ∧
    (createReportProgress input s).2.users = s.users ∧
    (createReportProgress input s).2.categories = s.categories :=
  ⟨rfl, rfl, rfl, rfl, rfl, rfl, rfl, rfl⟩

/-- C8 counterexample: on a store holding no reports at all, createReportProgress with report_id 5 does not fail — it inserts the dangling ledger row (the handler performs no referential-existence check and the schema has no foreign key on report_id). -/
theorem createReportProgress_succeeds_on_dangling_report_id :
    baseStore.reports = [] ∧
    (createReportProgress
        { report_id := 5, admin_id := some 2, status := Status.proses,
          notes := some "catatan" } baseStore).2.progress =
      [{ id := 1, report_id := 5, admin_id := some 2, status := Status.proses,
         notes := some "catatan", created_at := 100 }] :=
  ⟨rfl, rfl⟩

/-- C6 evidence: getUserById and createUser return the stored password_hash verbatim, while login and getCurrentUser blank it — so the claim that no account-returning operation exposes the stored credential fails on the user-management handlers. -/
theorem getUserById_exposes_stored_password_hash :
    (getUserById 7 baseStore).map (fun u => u.password_hash) = some "hunter2h" ∧
    (createUser hashW
        { username := "carol", name := "Carol", email := "carol@example.com",
          password := "pw123456", role := Role.pelapor, is_active := true }
        baseStore).1.password_hash = "pw123456h" ∧
    (login hashW { username := "alice", password := "hunter2" } baseStore).toOption.map
        (fun u => u.password_hash) = some "" ∧
    (getCurrentUser 7 baseStore).map (fun u => u.password_hash) = some "" :=
  ⟨rfl, rfl, rfl, rfl⟩

/-- C5 counterexample: deleteReport on a report id absent from the store raises the not-found-or-access-denied error instead of returning false. -/
theorem deleteReport_missing_id_raises :
    storeWithReport.reports.filter (fun r => r.id == 99) = [] ∧
    deleteReport 99 7 storeWithReport =
      Except.error "Report not found or access denied" :=
  ⟨rfl, rfl⟩

/-- C5 (amended): whenever no stored report carries both the given id and the acting reporter as owner — the report is missing or belongs to someone else — deleteReport raises the same "Report not found or access denied" error, so the two cases are indistinguishable to the caller. -/
theorem deleteReport_missing_or_foreign_same_error
    (s : Store) (id userId : Nat)
    (h : ∀ r ∈ s.reports, ¬(r.id = id ∧ r.reporter_id = userId)) :
    deleteReport id userId s = Except.error "Report not found or access denied" := by
  have hnone : s.reports.find? (fun r => r.id == id && r.reporter_id == userId) = none := by
    rw [List.find?_eq_none]
    intro x hx
    have hx2 := h x hx
    simp only [Bool.and_eq_true, beq_iff_eq]
    tauto
  simp [deleteReport, hnone]

/-- C5 witness: the wrong-owner case (report 1 exists but belongs to reporter 7, acting reporter 2) produces the same error as a missing id. -/
theorem deleteReport_missing_or_foreign_same_error_witness :
    deleteReport 1 2 storeWithReport =
      Except.error "Report not found or access denied" :=
  deleteReport_missing_or_foreign_same_error storeWithReport 1 2 (by decide)

/-- C9: login failure does not reveal account existence — an unknown username and a wrong password for an existing active account produce the identical "Invalid username or password" error, while only an inactive account produces the distinct "User account is disabled" error. -/
theorem login_failures_indistinguishable
    (hashPw : String → String) (s : Store) (input : LoginInput) :
    ((∀ u ∈ s.users, u.username ≠ input.username) →
        login hashPw input s = Except.error "Invalid username or password") ∧
    (∀ u, s.users.find? (fun x => x.username == input.username) = some u →
        u.is_active = true →
        hashPw input.password ≠ u.password_hash →
        login hashPw input s = Except.error "Invalid username or password") ∧
    (∀ u, s.users.find? (fun x => x.username == input.username) = some u →
        u.is_active = false →
        login hashPw input s = Except.error "User account is disabled") ∧
    "User account is disabled" ≠ "Invalid username or password" := by
  refine ⟨?_, ?_, ?_, by decide⟩
  · intro h
    have hnone : s.users.find? (fun x => x.username == input.username) = none := by
      rw [List.find?_eq_none]
      intro x hx
      simp [h x hx]
    simp [login, hnone]
  · intro u hu hact hpw
    simp [login, hu, hact, hpw]
  · intro u hu hact
    simp [login, hu, hact]

/-- C9 witness: the three failure shapes on the concrete base store. -/
theorem login_failures_indistinguishable_witness :
    login hashW { username := "nobody", password := "pw" } baseStore =
      Except.error "Invalid username or password" ∧
    login hashW { username := "alice", password := "wrong" } baseStore =
      Except.error "Invalid username or password" ∧
    login hashW { username := "bob", password := "hunter2" } baseStore =
      Except.error "User account is disabled" := by
  refine ⟨?_, ?_, ?_⟩
  · exact (login_failures_indistinguishable hashW baseStore
      { username := "nobody", password := "pw" }).1 (by decide)
  · exact (login_failures_indistinguishable hashW baseStore
      { username := "alice", password := "wrong" }).2.1 uReporter (by decide) (by decide)
      (by decide)
  · exact (login_failures_indistinguishable hashW baseStore
      { username := "bob", password := "hunter2" }).2.2.1 uInactive (by decide) (by decide)

/-- C1 evidence: none of the three mutating handlers wraps its two store statements in a transaction, so each has a reachable intermediate state with exactly the first change applied — a failure of the second statement leaves that partial state, contradicting the atomicity the specification demands. The happy-path success of each handler shows the second statement is reached. -/
theorem mutations_not_atomic :
    (isOk (createReport cInput baseStore) = true ∧
      (createReportAfterLedgerInsertFailure cInput baseStore).reports.length =
        baseStore.reports.length + 1 ∧
      progressFor baseStore.nextReportId
        (createReportAfterLedgerInsertFailure cInput baseStore) = []) ∧
    (isOk (updateReportStatus 1 Status.proses (some "sedang ditinjau") 2 storeWithReport) =
        true ∧
      (updateReportStatusAfterLedgerInsertFailure 1 Status.proses storeWithReport).reports.map
          (fun r => r.status) = [Status.proses] ∧
      (updateReportStatusAfterLedgerInsertFailure 1 Status.proses storeWithReport).progress =
        storeWithReport.progress) ∧
    (isOk (deleteReport 1 7 storeWithReport) = true ∧
      progressFor 1 (deleteReportAfterReportDeleteFailure 1 storeWithReport) = [] ∧
      ((deleteReportAfterReportDeleteFailure 1 storeWithReport).reports.filter
          (fun r => r.id == 1)).length = 1) := by
  decide

/-- C2: for every create input resolving to an active category and an active reporter (on a store whose next serial report id is unused in the ledger), createReport succeeds, the returned report has status baru, and exactly one ledger entry exists for it afterwards — status baru, admin null, note "Laporan dibuat". -/
theorem createReport_new_status_single_creation_entry
    (s : Store) (input : CreateReportInput)
    (hcat : (findActiveCategory input.category_id s).isSome = true)
    (hrep : (findActiveUser input.reporter_id s).isSome = true)
    (hfresh : progressFor s.nextReportId s = []) :
    (createReport input s).toOption.map
        (fun p => (p.1.status, progressFor p.1.id p.2)) =
      some (Status.baru,
        [{ id := s.nextProgressId, report_id := s.nextReportId, admin_id := none,
           status := Status.baru, notes := some "Laporan dibuat", created_at := s.now }]) := by
  obtain ⟨c, hc⟩ := Option.isSome_iff_exists.mp hcat
  obtain ⟨u, hu⟩ := Option.isSome_iff_exists.mp hrep
  simp only [progressFor] at hfresh
  simp only [createReport, hc, hu, insertReportStmt, insertProgressStmt, Except.toOption,
    Option.map_some', progressFor]
  refine congrArg some ?_
  refine Prod.mk.injEq .. |>.mpr ⟨rfl, ?_⟩
  rw [List.filter_append, hfresh]
  simp

/-- C2 witness: creating a report on the concrete base store. -/
theorem createReport_new_status_single_creation_entry_witness :
    (createReport cInput baseStore).toOption.map
        (fun p => (p.1.status, progressFor p.1.id p.2)) =
      some (Status.baru,
        [{ id := 1, report_id := 1, admin_id := none, status := Status.baru,
           notes := some "Laporan dibuat", created_at := 100 }]) :=
  createReport_new_status_single_creation_entry baseStore cInput (by decide) (by decide)
    (by decide)

/-- C7: whenever getReportById returns a report, its embedded timeline and the standalone getReportProgress timeline are both permutations of the same underlying ledger rows, with the embedded one sorted oldest-first and the standalone one sorted newest-first. -/
theorem timeline_dual_orderings
    (s : Store) (id : Nat) (rw : ReportWithRelations)
    (h : getReportById id s = some rw) :
    rw.progress.Perm (progressFor id s) ∧
    (getReportProgress id s).Perm (progressFor id s) ∧
    List.Sorted createdAsc rw.progress ∧
    List.Sorted createdDesc (getReportProgress id s) := by
  have hp : rw.progress = List.insertionSort createdAsc (progressFor id s) := by
    unfold getReportById at h
    split at h
    · exact absurd h (by simp)
    · split at h
      · cases h
        rfl
      · exact absurd h (by simp)
  refine ⟨?_, ?_, ?_, ?_⟩
  · rw [hp]
    exact List.perm_insertionSort createdAsc _
  · exact List.perm_insertionSort createdDesc _
  · rw [hp]
    exact List.sorted_insertionSort createdAsc _
  · exact List.sorted_insertionSort createdDesc _

/-- Concrete fixture: a second ledger entry for rep1, written by the admin. -/
def prog2 : ProgressRow :=
  { id := 2, report_id := 1, admin_id := some 2, status := Status.proses,
    notes := some "sedang ditinjau", created_at := 150 }

/-- Concrete fixture: the store after the admin moved rep1 to proses; the raw ledger list holds the newer entry first so that the two orderings differ. -/
def storeTwoEntries : Store :=
  { users := [uReporter, uAdmin, uInactive], categories := [cat1],
    reports := [{ rep1 with status := Status.proses, updated_at := 150 }],
    progress := [prog2, prog1], nextUserId := 4, nextReportId := 2,
    nextProgressId := 3, now := 300 }

/-- Concrete fixture: the detail view getReportById returns for report 1 of storeTwoEntries. -/
def rwDetail : ReportWithRelations :=
  { id := 1, npsn := "12345678", school_name := "MTs 1", category_id := 1,
    category_name := "Teknis", issue_description := "Nilai TKA belum muncul",
    nisn := some "1234567890", status := Status.proses, reporter_id := 7,
    reporter_name := "Alice", created_at := 100, updated_at := 150,
    progress := [prog1, prog2] }

/-- C7 witness: the two orderings on the concrete two-entry store. -/
theorem timeline_dual_orderings_witness :
    rwDetail.progress.Perm (progressFor 1 storeTwoEntries) ∧
    (getReportProgress 1 storeTwoEntries).Perm (progressFor 1 storeTwoEntries) ∧
    List.Sorted createdAsc rwDetail.progress ∧
    List.Sorted createdDesc (getReportProgress 1 storeTwoEntries) :=
  timeline_dual_orderings storeTwoEntries 1 rwDetail (by decide)

/-- Concrete fixture: an update input carrying only a category_id that resolves to no active category, against a report the acting reporter owns with status baru. -/
def cx4input : UpdateReportInput :=
  { id := 1, npsn := none, school_name := none, category_id := some 5,
    issue_description := none, nisn := none, status := none }

/-- C4 counterexample: the report exists, is owned by the acting reporter, and has status baru, yet updateReport fails — because the input carries a category_id that resolves to no active category. The claimed "succeeds exactly when owner matches and status is new" equivalence is therefore false. -/
theorem updateReport_owner_new_still_fails_on_bad_category :
    (storeWithReport.reports.find? (fun r => r.id == 1 && r.reporter_id == 7)).map
        (fun r => r.status) = some Status.baru ∧
    updateReport cx4input 7 storeWithReport =
      Except.error "Category not found or inactive" :=
  ⟨rfl, rfl⟩

/-- Unfolding of updateReport once the ownership lookup has found a row. -/
theorem updateReport_unfold_found
    (s : Store) (input : UpdateReportInput) (userId : Nat) (r : ReportRow)
    (hf : s.reports.find? (fun x => x.id == input.id && x.reporter_id == userId) = some r) :
    updateReport input userId s =
      if r.status != Status.baru then
        Except.error "Can only update reports with status \"baru\""
      else if truthyNat input.category_id &&
          (findActiveCategory (input.category_id.getD 0) s).isNone then
        Except.error "Category not found or inactive"
      else
        Except.ok (applyReportUpdate input s.now r,
          { s with reports := s.reports.map (fun x =>
              if x.id == input.id then applyReportUpdate input s.now x else x) }) := by
  unfold updateReport
  rw [hf]

/-- C4 (amended): updateReport succeeds exactly when the report exists with the acting reporter as owner, its status is baru, and any truthy category_id in the input resolves to an active category; on success it writes only the fields present in the partial input plus the updated timestamp — absent fields keep their pre-update values, an omitted nisn is untouched while an explicit null nisn clears it — and it never changes the status or the progress ledger. -/
theorem updateReport_success_iff_and_frame :
    (∀ (s : Store) (input : UpdateReportInput) (userId : Nat),
        isOk (updateReport input userId s) = updateByReporterPre input userId s) ∧
    (∀ (s : Store) (input : UpdateReportInput) (userId : Nat) (r r' : ReportRow) (s' : Store),
        s.reports.find? (fun x => x.id == input.id && x.reporter_id == userId) = some r →
        updateReport input userId s = Except.ok (r', s') →
        s'.progress = s.progress ∧ s'.users = s.users ∧ s'.categories = s.categories ∧
        r'.status = r.status ∧ r'.created_at = r.created_at ∧
        r'.reporter_id = r.reporter_id ∧ r'.id = r.id ∧ r'.updated_at = s.now ∧
        (input.npsn = none → r'.npsn = r.npsn) ∧
        (input.school_name = none → r'.school_name = r.school_name) ∧
        (input.category_id = none → r'.category_id = r.category_id) ∧
        (input.issue_description = none → r'.issue_description = r.issue_description) ∧
        (input.nisn = none → r'.nisn = r.nisn) ∧
        (∀ v, input.nisn = some v → r'.nisn = v)) := by
  constructor
  · intro s input userId
    unfold updateReport updateByReporterPre
    cases hf : s.reports.find? (fun x => x.id == input.id && x.reporter_id == userId) with
    | none => rfl
    | some r =>
      cases hst : r.status == Status.baru with
      | false => simp [bne, hst, isOk]
      | true =>
        cases htr : truthyNat input.category_id with
        | false => simp [bne, hst, htr, isOk]
        | true =>
          cases ho : findActiveCategory (input.category_id.getD 0) s with
          | none => simp [bne, hst, htr, ho, isOk]
          | some c => simp [bne, hst, htr, ho, isOk]
  · intro s input userId r r' s' hf hok
    rw [updateReport_unfold_found s input userId r hf] at hok
    by_cases hst : (r.status != Status.baru) = true
    · rw [if_pos hst] at hok
      exact absurd hok (by simp)
    · rw [if_neg hst] at hok
      by_cases hc : (truthyNat input.category_id &&
          (findActiveCategory (input.category_id.getD 0) s).isNone) = true
      · rw [if_pos hc] at hok
        exact absurd hok (by simp)
      · rw [if_neg hc] at hok
        have hpair : (applyReportUpdate input s.now r,
            { s with reports := s.reports.map (fun x =>
                if x.id == input.id then applyReportUpdate input s.now x else x) }) =
            (r', s') := by
          exact Except.ok.inj hok
        obtain ⟨hr, hs⟩ := Prod.mk.injEq .. |>.mp hpair
        subst hr
        subst hs
        refine ⟨rfl, rfl, rfl, rfl, rfl, rfl, rfl, rfl, ?_, ?_, ?_, ?_, ?_, ?_⟩
        · intro h
          simp [applyReportUpdate, h]
        · intro h
          simp [applyReportUpdate, h]
        · intro h
          simp [applyReportUpdate, h]
        · intro h
          simp [applyReportUpdate, h]
        · intro h
          simp [applyReportUpdate, h]
        · intro v h
          simp [applyReportUpdate, h]

/-- Concrete fixture: a partial update against rep1 setting a new school name, ignoring status, and explicitly clearing nisn. -/
def upInput : UpdateReportInput :=
  { id := 1, npsn := none, school_name := some "MTs Negeri 2", category_id := none,
    issue_description := none, nisn := some none, status := some Status.selesai }

/-- C4 witness: the success-equivalence and the frame facts at a concrete partial update — the ledger is untouched, the explicit null clears nisn, and the status stays baru even though the input carries a status. -/
theorem updateReport_success_iff_and_frame_witness :
    isOk (updateReport upInput 7 storeWithReport) =
      updateByReporterPre upInput 7 storeWithReport ∧
    (updateReport upInput 7 storeWithReport).toOption.map
        (fun p => (p.2.progress, p.1.nisn, p.1.status, p.1.npsn)) =
      some (storeWithReport.progress, none, Status.baru, "12345678") := by
  constructor
  · exact updateReport_success_iff_and_frame.1 storeWithReport upInput 7
  · cases hok : updateReport upInput 7 storeWithReport with
    | error e =>
      have h1 := updateReport_success_iff_and_frame.1 storeWithReport upInput 7
      rw [hok] at h1
      have h2 : updateByReporterPre upInput 7 storeWithReport = true := by decide
      rw [h2] at h1
      exact Bool.noConfusion h1
    | ok p =>
      have hfacts := updateReport_success_iff_and_frame.2 storeWithReport upInput 7
        rep1 p.1 p.2 (by decide) (by rw [hok])
      simp only [Except.toOption, Option.map_some]
      refine congrArg some ?_
      refine Prod.mk.injEq .. |>.mpr ⟨hfacts.1, ?_⟩
      refine Prod.mk.injEq .. |>.mpr ⟨hfacts.2.2.2.2.2.2.2.2.2.2.2.2.2 none rfl, ?_⟩
      refine Prod.mk.injEq .. |>.mpr ⟨hfacts.2.2.2.1, ?_⟩
      exact hfacts.2.2.2.2.2.2.2.2.1 rfl

/-- Unfolding of updateReportStatus once both lookups have found rows: it returns the updated row and the store with the status written and one ledger row appended. -/
theorem updateReportStatus_ok_shape
    (s : Store) (reportId : Nat) (st : Status) (notes : Option String) (adminId : Nat)
    (r0 : ReportRow) (a : UserRow)
    (hf : s.reports.find? (fun r => r.id == reportId) = some r0)
    (ha : findActiveAdmin adminId s = some a) :
    updateReportStatus reportId st notes adminId s =
      Except.ok ({ r0 with status := st, updated_at := s.now },
        { s with
            reports := s.reports.map (fun r =>
              if r.id == reportId then { r with status := st, updated_at := s.now } else r),
            progress := s.progress ++
              [{ id := s.nextProgressId, report_id := reportId, admin_id := some adminId,
                 status := st, notes := notes, created_at := s.now }],
            nextProgressId := s.nextProgressId + 1 }) := by
  unfold updateReportStatus
  rw [hf, ha]
  rfl

/-- Mapping an id-preserving function across a report list keeps the id lookup hitting. -/
theorem find?_isSome_map_id_preserving
    (l : List ReportRow) (f : ReportRow → ReportRow)
    (hid : ∀ r, (f r).id = r.id) (reportId : Nat)
    (h : (l.find? (fun r => r.id == reportId)).isSome = true) :
    ((l.map f).find? (fun r => r.id == reportId)).isSome = true := by
  rw [List.find?_isSome] at h ⊢
  obtain ⟨x, hx, hpx⟩ := h
  refine ⟨f x, List.mem_map_of_mem f hx, ?_⟩
  show ((f x).id == reportId) = true
  rw [hid x]
  exact hpx

/-- A hit in the right part of an appended list is a hit in the whole list. -/
theorem find?_isSome_append_right
    {p : ReportRow → Bool} (l1 l2 : List ReportRow)
    (h : (l2.find? p).isSome = true) : ((l1 ++ l2).find? p).isSome = true := by
  rw [List.find?_append]
  cases hl : l1.find? p with
  | none => simpa [hl] using h
  | some a => simp [hl]

/-- Iterating updateReportStatus: while the report id stays resolvable and the admin stays a valid active admin, every call succeeds and each call grows the report's ledger by exactly one row. -/
theorem applyUpdates_count
    (adminId reportId : Nat) (us : List (Status × Option String)) :
    ∀ s : Store,
      (s.reports.find? (fun r => r.id == reportId)).isSome = true →
      (findActiveAdmin adminId s).isSome = true →
      (applyUpdates adminId reportId us s).toOption.map
          (fun s2 => (progressFor reportId s2).length) =
        some ((progressFor reportId s).length + us.length) := by
  induction us with
  | nil =>
    intro s _ _
    simp [applyUpdates, Except.toOption]
  | cons u rest ih =>
    intro s h1 h2
    obtain ⟨r0, hf⟩ := Option.isSome_iff_exists.mp h1
    obtain ⟨a, ha⟩ := Option.isSome_iff_exists.mp h2
    rw [applyUpdates, updateReportStatus_ok_shape s reportId u.1 u.2 adminId r0 a hf ha]
    have hpres1 : ((s.reports.map (fun r =>
        if r.id == reportId then { r with status := u.1, updated_at := s.now } else r)).find?
          (fun r => r.id == reportId)).isSome = true := by
      refine find?_isSome_map_id_preserving s.reports _ ?_ reportId h1
      intro r
      by_cases h : (r.id == reportId) = true <;> simp [h]
    have hstep := ih
      { s with
          reports := s.reports.map (fun r =>
            if r.id == reportId then { r with status := u.1, updated_at := s.now } else r),
          progress := s.progress ++
            [{ id := s.nextProgressId, report_id := reportId, admin_id := some adminId,
               status := u.1, notes := u.2, created_at := s.now }],
          nextProgressId := s.nextProgressId + 1 }
      hpres1 h2
    rw [hstep]
    refine congrArg some ?_
    simp only [progressFor, List.filter_append]
    simp [List.length_append]
    omega

/-- C3: updateReportStatus by an existing active admin imposes no transition restriction — it writes the requested status over any current one, returns the updated row, and appends exactly one ledger entry carrying the new status and the acting admin — and iterating it N times after creating a report leaves N+1 ledger rows for that report, counting the creation entry. -/
theorem updateStatus_unrestricted_and_ledger_counts :
    (∀ (s : Store) (reportId : Nat) (st : Status) (notes : Option String) (adminId : Nat)
        (r0 : ReportRow) (a : UserRow),
        s.reports.find? (fun r => r.id == reportId) = some r0 →
        findActiveAdmin adminId s = some a →
        (updateReportStatus reportId st notes adminId s).toOption.map
            (fun p => (p.1.status, p.2.reports, progressFor reportId p.2)) =
          some (st,
            s.reports.map (fun r =>
              if r.id == reportId then { r with status := st, updated_at := s.now } else r),
            progressFor reportId s ++
              [{ id := s.nextProgressId, report_id := reportId, admin_id := some adminId,
                 status := st, notes := notes, created_at := s.now }])) ∧
    (∀ (s : Store) (input : CreateReportInput) (adminId : Nat)
        (us : List (Status × Option String)) (r : ReportRow) (s1 : Store),
        createReport input s = Except.ok (r, s1) →
        (findActiveAdmin adminId s).isSome = true →
        progressFor s.nextReportId s = [] →
        (applyUpdates adminId r.id us s1).toOption.map
            (fun s2 => (progressFor r.id s2).length) = some (us.length + 1)) := by
  constructor
  · intro s reportId st notes adminId r0 a hf ha
    rw [updateReportStatus_ok_shape s reportId st notes adminId r0 a hf ha]
    simp only [Except.toOption, Option.map_some']
    refine congrArg some ?_
    refine Prod.mk.injEq .. |>.mpr ⟨rfl, ?_⟩
    refine Prod.mk.injEq .. |>.mpr ⟨rfl, ?_⟩
    simp [progressFor, List.filter_append]
  · intro s input adminId us r s1 hok hadm hfresh
    unfold createReport at hok
    cases hc : findActiveCategory input.category_id s with
    | none => rw [hc] at hok; exact absurd hok (by simp)
    | some c =>
      cases hu : findActiveUser input.reporter_id s with
      | none => rw [hc, hu] at hok; exact absurd hok (by simp)
      | some u =>
        rw [hc, hu] at hok
        simp only [insertReportStmt, insertProgressStmt] at hok
        have hpair := Except.ok.inj hok
        obtain ⟨hr, hs⟩ := Prod.mk.injEq .. |>.mp hpair
        subst hr
        subst hs
        have hfind : (((s.reports ++
            ([{ id := s.nextReportId, npsn := input.npsn, school_name := input.school_name,
                category_id := input.category_id, issue_description := input.issue_description,
                nisn := input.nisn, status := Status.baru, reporter_id := input.reporter_id,
                created_at := s.now, updated_at := s.now }] : List ReportRow)).find?
                (fun x => x.id == s.nextReportId)).isSome) = true := by
          apply find?_isSome_append_right
          simp
        have hcount := applyUpdates_count adminId s.nextReportId us
          { s with
              reports := s.reports ++
                [{ id := s.nextReportId, npsn := input.npsn, school_name := input.school_name,
                   category_id := input.category_id,
                   issue_description := input.issue_description, nisn := input.nisn,
                   status := Status.baru, reporter_id := input.reporter_id,
                   created_at := s.now, updated_at := s.now }],
              progress := s.progress ++
                [{ id := s.nextProgressId, report_id := s.nextReportId, admin_id := none,
                   status := Status.baru, notes := some "Laporan dibuat",
                   created_at := s.now }],
              nextReportId := s.nextReportId + 1, nextProgressId := s.nextProgressId + 1 }
          hfind hadm
        rw [hcount]
        refine congrArg some ?_
        simp only [progressFor, List.filter_append] at hfresh ⊢
        rw [hfresh]
        simp
        omega

/-- C3 witness: one concrete status update appends exactly the expected ledger row, and a create followed by two status updates leaves three ledger rows. -/
theorem updateStatus_unrestricted_and_ledger_counts_witness :
    (updateReportStatus 1 Status.selesai none 2 storeWithReport).toOption.map
        (fun p => (p.1.status, p.2.reports, progressFor 1 p.2)) =
      some (Status.selesai,
        [{ rep1 with status := Status.selesai, updated_at := 200 }],
        [prog1,
         { id := 2, report_id := 1, admin_id := some 2, status := Status.selesai,
           notes := none, created_at := 200 }]) ∧
    (createReport cInput baseStore).toOption.map (fun p =>
        (applyUpdates 2 p.1.id
            [(Status.proses, some "sedang ditinjau"), (Status.selesai, none)] p.2).toOption.map
          (fun s2 => (progressFor p.1.id s2).length)) = some (some 3) := by
  constructor
  · exact updateStatus_unrestricted_and_ledger_counts.1 storeWithReport 1 Status.selesai
      none 2 rep1 uAdmin (by decide) (by decide)
  · cases hok : createReport cInput baseStore with
    | error e =>
      have : isOk (createReport cInput baseStore) = true := by decide
      rw [hok] at this
      exact Bool.noConfusion this
    | ok p =>
      have h2 := updateStatus_unrestricted_and_ledger_counts.2 baseStore cInput 2
        [(Status.proses, some "sedang ditinjau"), (Status.selesai, none)] p.1 p.2
        (by rw [hok]) (by decide) (by decide)
      simp only [Except.toOption, Option.map_some']
      exact congrArg some h2

end TkaHelpdesk
